import Mathlib

/-!
Verification development for the AgenticQuant multi-agent workflow engine.

Shallow embedding, in Lean 4, of the control logic of:
  * the code sandbox repair loop (`src/tools/python_sandbox.py`),
  * the ReAct task-executor loop (`src/agents/base_agent.py`),
  * the orchestrator decision parser and retry loop (`src/agents/orchestrator.py`),
  * the controller dispatch state updates (`src/workflow_engine.py`).

External effects (the reasoning backend, subprocesses, the file system) are
passed in as explicit data: each definition is a pure function of the code's
inputs plus the environment's responses.
-/

namespace AgenticQuant

/-! ## Python string primitives used by the embedded code -/

/-- Equality of `Except` values is decidable when it is for both components. -/
instance instExceptDecEq {ε α : Type} [DecidableEq ε] [DecidableEq α] :
    DecidableEq (Except ε α)
  | .error e, .error f =>
      if h : e = f then .isTrue (by rw [h]) else .isFalse (by simp [h])
  | .error _, .ok _ => .isFalse (by simp)
  | .ok _, .error _ => .isFalse (by simp)
  | .ok a, .ok b =>
      if h : a = b then .isTrue (by rw [h]) else .isFalse (by simp [h])

/-- Python whitespace characters recognised by `str.strip()` / `\s`. -/
def pyIsSpace (c : Char) : Bool :=
  c = ' ' || c = '\t' || c = '\n' || c = '\r' || c = '\x0b' || c = '\x0c'

/-- Python `str.strip()`: remove leading and trailing whitespace. -/
def pyStrip (s : String) : String :=
  ⟨((s.data.dropWhile pyIsSpace).reverse.dropWhile pyIsSpace).reverse⟩

/-- Python `s.split('\n')`: split at every newline, keeping empty pieces. -/
def pySplitNLAux : List Char → List Char → List String
  | [], acc => [⟨acc.reverse⟩]
  | '\n' :: rest, acc => String.mk acc.reverse :: pySplitNLAux rest []
  | c :: rest, acc => pySplitNLAux rest (c :: acc)

/-- Python `s.split('\n')[-1]`: the final line of a string
(`split` always yields at least one piece, so the default is unreachable). -/
def pyLastLine (s : String) : String :=
  (pySplitNLAux s.data []).getLastD ""

/-! ## Code sandbox (`src/tools/python_sandbox.py`)

`PythonExecutionTool.execute` runs a generate → execute → diagnose →
regenerate loop.  We embed the loop's control logic; the reasoning backend's
generated code and the subprocess's raw behaviour per attempt are supplied by
an environment `Nat → AttemptEnv` (attempt index ↦ that attempt's data), and
JSON decoding of the final stdout line is supplied as a function
`String → Option SummaryRecord` (`json.loads` succeeding with a record-shaped
object, or failing). -/

/-- The machine-readable summary record printed as the wrapper script's final
stdout line: `{"stdout": ..., "stderr": ..., "files_created": ..., "return_code": ...}`. -/
structure SummaryRecord where
  stdout : String
  stderr : String
  files_created : List String
  return_code : Int
  deriving Repr, DecidableEq

/-- Raw behaviour of one subprocess execution: it either runs to completion
with captured stdout/stderr and an exit status, or exceeds the external
timeout (`asyncio.wait_for` raising `asyncio.TimeoutError`). -/
inductive SubprocBehavior where
  | completes (stdout stderr : String) (returncode : Int)
  | timesOut
  deriving Repr, DecidableEq

/-- The dictionary `_execute_in_subprocess` returns when the subprocess
completes (timing field omitted). -/
structure SubprocResult where
  stdout : String
  stderr : String
  return_code : Int
  files_created : List String
  deriving Repr, DecidableEq

/-- `_execute_in_subprocess` (lines 450–472), completion case: parse the final
line of stdout as the JSON summary record; on success the record's fields are
the result, otherwise fall back to the captured streams and the process's own
exit status with no files reported. -/
def executeInSubprocess (parse : String → Option SummaryRecord)
    (stdout stderr : String) (returncode : Int) : SubprocResult :=
  match parse (pyLastLine (pyStrip stdout)) with
  | some r =>
      { stdout := r.stdout, stderr := r.stderr,
        return_code := r.return_code, files_created := r.files_created }
  | none =>
      { stdout := stdout, stderr := stderr,
        return_code := returncode, files_created := [] }

/-- The `error_report` string built by `_execute_generated_code` on failure. -/
def errorReportText (code stdout stderr : String) : String :=
  "Python code:\n\n" ++ code ++
  "\n\nExecution Status:\n\nfailed\n\nSTDOUT:\n" ++ stdout ++
  "\n\nSTDERR:\n" ++ stderr

/-- Result dictionary of `_execute_generated_code`, decorated by `execute`
with the generated code and the attempt index (lines 119–122). -/
structure GenExecResult where
  stdout : String
  stderr : String
  return_code : Int
  files_created : List String
  success : Bool
  error_report : Option String
  generated_code : String
  attempt : Nat
  deriving Repr, DecidableEq

/-- `_execute_generated_code` (lines 296–355) for a completed subprocess run:
`success` is exactly `result['return_code'] == 0` on the parsed-or-fallback
result, and a diagnostic `error_report` is attached when not successful. -/
def executeGeneratedCode (parse : String → Option SummaryRecord)
    (code stdout stderr : String) (returncode : Int) (attemptIdx : Nat) :
    GenExecResult :=
  let r := executeInSubprocess parse stdout stderr returncode
  let ok := r.return_code == 0
  { stdout := r.stdout
    stderr := r.stderr
    return_code := r.return_code
    files_created := r.files_created
    success := ok
    error_report :=
      if ok then none else some (errorReportText code r.stdout r.stderr)
    generated_code := code
    attempt := attemptIdx }

/-- `_truncate_text`: empty input maps to `""`; otherwise strip, and clip to
`limit` characters with a `"..."` suffix. -/
def truncateText (limit : Nat) (v : String) : String :=
  if v = "" then ""
  else
    let v := pyStrip v
    if v.length ≤ limit then v
    else String.mk (v.data.take (limit - 3)) ++ "..."

/-- One entry of the `attempts` history list built in `execute`
(lines 124–135); prompt-echo field `code_generation_response` omitted. -/
structure AttemptSummary where
  attempt : Nat
  return_code : Int
  success : Bool
  stdout : String
  stderr : String
  error_report : String
  files_created : List String
  generated_code : String
  deriving Repr, DecidableEq

/-- Build the per-attempt summary recorded in the history list. -/
def mkAttemptSummary (g : GenExecResult) : AttemptSummary :=
  { attempt := g.attempt
    return_code := g.return_code
    success := g.success
    stdout := truncateText 2000 g.stdout
    stderr := truncateText 2000 g.stderr
    error_report := truncateText 2000 (g.error_report.getD "")
    files_created := g.files_created
    generated_code := g.generated_code }

/-- The exceptions `execute` raises: the `except asyncio.TimeoutError` branch
(lines 171–173) and the generic `except Exception` branch (lines 174–176). -/
inductive SandboxError where
  | timeout (seconds : Nat)
  | failed (msg : String)
  deriving Repr, DecidableEq

/-- The environment's data for one attempt: the code the backend generates for
it and how the subprocess behaves on that code. -/
structure AttemptEnv where
  code : String
  behavior : SubprocBehavior
  deriving Repr, DecidableEq

/-- The result `execute` returns on success (lines 164–170); persisted-artifact
path and session id omitted. -/
structure SandboxFinal where
  last : GenExecResult
  attempts : List AttemptSummary
  total_attempts : Nat
  max_attempts : Nat
  task_description : String
  deriving Repr, DecidableEq

/-- The `for attempt_idx in range(1, max_attempts + 1)` loop of `execute`
(lines 107–152): run the attempt; a subprocess timeout propagates out of the
loop and is re-raised (no attempt entry is recorded for it); otherwise record
the attempt summary and stop on the first successful execution.  When the fuel
is exhausted without any attempt having run, the `RuntimeError` of line 152 is
raised (wrapped by the outer `except Exception`). -/
def sandboxLoop (parse : String → Option SummaryRecord) (env : Nat → AttemptEnv)
    (timeoutSecs : Nat) :
    Nat → Nat → List AttemptSummary → Option GenExecResult →
    Except SandboxError (GenExecResult × List AttemptSummary)
  | 0, _, hist, last =>
      match last with
      | none =>
          .error (.failed
            "Execution failed: Execution loop completed without running any attempts")
      | some l => .ok (l, hist)
  | fuel + 1, idx, hist, last =>
      match (env idx).behavior with
      | .timesOut => .error (.timeout timeoutSecs)
      | .completes out err rc =>
          let g := executeGeneratedCode parse (env idx).code out err rc idx
          let hist' := hist ++ [mkAttemptSummary g]
          if g.success then .ok (g, hist')
          else sandboxLoop parse env timeoutSecs fuel (idx + 1) hist' (some g)

/-- `PythonExecutionTool.execute` (lines 83–176): validate the task
description, then run the bounded repair loop and package the final attempt
together with the attempt history. -/
def sandboxExecute (maxAttempts timeoutSecs : Nat)
    (parse : String → Option SummaryRecord) (env : Nat → AttemptEnv)
    (task : String) : Except SandboxError SandboxFinal :=
  if pyStrip task = "" then
    .error (.failed "Execution failed: task_description is required and cannot be empty")
  else
    match sandboxLoop parse env timeoutSecs maxAttempts 1 [] none with
    | .error e => .error e
    | .ok (g, hist) =>
        .ok { last := g
              attempts := hist
              total_attempts := hist.length
              max_attempts := maxAttempts
              task_description := task }

/-- A JSON decode that never yields a summary record: models `json.loads`
failing (or not producing a record) on a non-JSON final line such as `""`. -/
def noRecordParse : String → Option SummaryRecord := fun _ => none

/-- An environment whose every attempt exceeds the external timeout. -/
def timeoutEnv : Nat → AttemptEnv :=
  fun _ => { code := "print(1)", behavior := .timesOut }

/-- An environment whose every attempt exits with status 0 and empty output. -/
def okEnv : Nat → AttemptEnv :=
  fun _ => { code := "print(1)", behavior := .completes "" "" 0 }

/-- In an attempt result, `success` always equals `return_code == 0`. -/
theorem executeGeneratedCode_success_eq (parse : String → Option SummaryRecord)
    (c o e : String) (rc : Int) (i : Nat) :
    (executeGeneratedCode parse c o e rc i).success
      = ((executeGeneratedCode parse c o e rc i).return_code == 0) := rfl

/-- C1 counterexample: a run whose user code exits the wrapper early (e.g.
`sys.exit(0)`) completes with exit status 0 and an empty stdout whose final
line is not a parseable summary record, yet the attempt result has
`success = true` — refuting "success iff exit status zero AND the final line
parses as the summary record". -/
theorem sandboxSuccessIffRefuted :
    ¬ (((executeGeneratedCode noRecordParse "import sys\nsys.exit(0)" "" "" 0 1).success
          = true)
        ↔ ((0 : Int) = 0 ∧ noRecordParse (pyLastLine (pyStrip "")) ≠ none)) := by
  decide

/-- C1 (amended): an attempt's result has `success = true` iff the surfaced
return code is zero, where the surfaced return code is the parsed summary
record's `return_code` when the final stdout line parses as a record, and the
subprocess exit status otherwise; whenever the attempt is not successful, a
diagnostic `error_report` embedding the captured output is attached. -/
theorem sandboxSuccessCriterion :
    ∀ (parse : String → Option SummaryRecord) (code out err : String)
      (rc : Int) (idx : Nat),
      ((executeGeneratedCode parse code out err rc idx).success = true ↔
        (match parse (pyLastLine (pyStrip out)) with
         | some r => r.return_code = 0
         | none => rc = 0))
      ∧ ((executeGeneratedCode parse code out err rc idx).success = false →
          (executeGeneratedCode parse code out err rc idx).error_report.isSome
            = true) := by
  intro parse code out err rc idx
  constructor
  · cases h : parse (pyLastLine (pyStrip out)) with
    | none => simp [executeGeneratedCode, executeInSubprocess, h]
    | some r => simp [executeGeneratedCode, executeInSubprocess, h]
  · intro hfail
    cases h : parse (pyLastLine (pyStrip out)) with
    | none =>
        simp [executeGeneratedCode, executeInSubprocess, h] at hfail ⊢
        simp [hfail]
    | some r =>
        simp [executeGeneratedCode, executeInSubprocess, h] at hfail ⊢
        simp [hfail]

/-- Witness for `sandboxSuccessCriterion` at a concrete failing run. -/
theorem sandboxSuccessCriterionWitness :
    (executeGeneratedCode noRecordParse "x = 1" "boom" "trace" 1 1).error_report.isSome
      = true :=
  (sandboxSuccessCriterion noRecordParse "x = 1" "boom" "trace" 1 1).2 (by decide)

/-- C2 counterexample: a run whose first subprocess execution exceeds the
external timeout makes `execute` raise the timeout exception (modelled as
`Except.error`) instead of recording one more failed attempt and continuing —
even though two more attempts remained in the budget. -/
theorem sandboxTimeoutRefuted :
    sandboxExecute 3 300 noRecordParse timeoutEnv "compute the mean"
      = .error (.timeout 300) := rfl

/-- C2 (amended): whenever the repair loop reaches an attempt whose subprocess
exceeds the external timeout, the sandbox `execute` operation aborts with a
raised timeout exception; the timeout is never recorded as a failed attempt in
the history. -/
theorem sandboxTimeoutAborts :
    ∀ (parse : String → Option SummaryRecord) (env : Nat → AttemptEnv)
      (t fuel idx : Nat) (hist : List AttemptSummary)
      (last : Option GenExecResult),
      (env idx).behavior = .timesOut →
      sandboxLoop parse env t (fuel + 1) idx hist last = .error (.timeout t) := by
  intro parse env t fuel idx hist last h
  simp [sandboxLoop, h]

/-- Witness for `sandboxTimeoutAborts` on a concrete environment. -/
theorem sandboxTimeoutAbortsWitness :
    sandboxLoop noRecordParse timeoutEnv 300 3 1 [] none
      = .error (.timeout 300) :=
  sandboxTimeoutAborts noRecordParse timeoutEnv 300 2 1 [] none rfl

/-- Loop invariant for the repair loop: starting from a history of failed
attempts, a successful return extends the history by at most `fuel` entries
and every entry except possibly the last records a failed attempt. -/
theorem sandboxLoop_inv (parse : String → Option SummaryRecord)
    (env : Nat → AttemptEnv) (t : Nat) :
    ∀ (fuel idx : Nat) (hist : List AttemptSummary)
      (last : Option GenExecResult) (g : GenExecResult)
      (hist' : List AttemptSummary),
      sandboxLoop parse env t fuel idx hist last = .ok (g, hist') →
      (∀ s ∈ hist, s.success = false ∧ s.return_code ≠ 0) →
      hist'.length ≤ hist.length + fuel ∧
        ∀ s ∈ hist'.dropLast, s.success = false ∧ s.return_code ≠ 0 := by
  intro fuel
  induction fuel with
  | zero =>
      intro idx hist last g hist' hrun hpre
      cases last with
      | none => simp [sandboxLoop] at hrun
      | some l =>
          simp [sandboxLoop] at hrun
          obtain ⟨-, hh⟩ := hrun
          subst hh
          refine ⟨by omega, fun s hs => hpre s ?_⟩
          exact (List.dropLast_sublist hist).subset hs
  | succ fuel ih =>
      intro idx hist last g hist' hrun hpre
      rw [sandboxLoop] at hrun
      cases hb : (env idx).behavior with
      | timesOut =>
          rw [hb] at hrun
          exact absurd hrun (by simp)
      | completes out err rc =>
          rw [hb] at hrun
          simp only at hrun
          by_cases hs : (executeGeneratedCode parse (env idx).code out err rc idx).success
          · rw [if_pos hs] at hrun
            obtain ⟨h1, h2⟩ := Prod.mk.inj (Except.ok.inj hrun)
            subst h2
            refine ⟨by simp, ?_⟩
            simpa using hpre
          · rw [if_neg hs] at hrun
            have hf : (executeGeneratedCode parse (env idx).code out err rc idx).success
                = false := by simpa using hs
            have hrc : (executeGeneratedCode parse (env idx).code out err rc idx).return_code
                ≠ 0 := by
              intro hc
              rw [executeGeneratedCode_success_eq, hc] at hf
              simp at hf
            obtain ⟨hlen, hdrop⟩ := ih (idx + 1) _ (some _) g hist' hrun (by
              intro s hsmem
              simp only [List.concat_eq_append, List.mem_append,
                List.mem_singleton] at hsmem
              rcases hsmem with hmem | rfl
              · exact hpre s hmem
              · exact ⟨hf, hrc⟩)
            refine ⟨?_, hdrop⟩
            have hlen' : hist'.length ≤ hist.length + 1 + fuel := by simpa using hlen
            omega

/-- C8: the sandbox repair loop makes at most `max_attempts` attempts: the
returned attempt history has length at most `max_attempts`, `total_attempts`
equals the history length, and every attempt except the final one failed (its
surfaced return code was nonzero), so the first attempt surfacing exit status
zero stops the loop with no further attempts after it. -/
theorem sandboxAttemptBound :
    ∀ (maxA t : Nat) (parse : String → Option SummaryRecord)
      (env : Nat → AttemptEnv) (task : String) (final : SandboxFinal),
      sandboxExecute maxA t parse env task = .ok final →
      final.attempts.length ≤ maxA ∧
      final.total_attempts = final.attempts.length ∧
      ∀ s ∈ final.attempts.dropLast, s.success = false ∧ s.return_code ≠ 0 := by
  intro maxA t parse env task final hrun
  unfold sandboxExecute at hrun
  by_cases hempty : pyStrip task = ""
  · rw [if_pos hempty] at hrun; simp at hrun
  · rw [if_neg hempty] at hrun
    cases hloop : sandboxLoop parse env t maxA 1 [] none with
    | error e => rw [hloop] at hrun; simp at hrun
    | ok p =>
        rw [hloop] at hrun
        simp only [Except.ok.injEq] at hrun
        obtain ⟨g, hist⟩ := p
        have hinv := sandboxLoop_inv parse env t maxA 1 [] none g hist hloop
          (by intro s hs; simp at hs)
        subst hrun
        simpa using hinv

/-- The concrete final result of a one-attempt successful sandbox run. -/
def sbOkFinal : SandboxFinal :=
  { last := { stdout := "", stderr := "", return_code := 0, files_created := []
              success := true, error_report := none
              generated_code := "print(1)", attempt := 1 }
    attempts := [{ attempt := 1, return_code := 0, success := true
                   stdout := "", stderr := "", error_report := ""
                   files_created := [], generated_code := "print(1)" }]
    total_attempts := 1
    max_attempts := 10
    task_description := "t" }

/-- Witness for `sandboxAttemptBound` on a concrete successful run. -/
theorem sandboxAttemptBoundWitness :
    sbOkFinal.attempts.length ≤ 10 ∧
    sbOkFinal.total_attempts = sbOkFinal.attempts.length ∧
    ∀ s ∈ sbOkFinal.attempts.dropLast, s.success = false ∧ s.return_code ≠ 0 :=
  sandboxAttemptBound 10 300 noRecordParse okEnv "t" sbOkFinal rfl

/-! ## Task executor ReAct loop (`src/agents/base_agent.py`)

`BaseAgent.execute_task` (lines 69–290) runs a bounded reasoning-act-observe
loop.  The reasoning backend's reply for each iteration, and the behaviour of
each dispatched tool, are environment data.  A `None` reasoning text is
modelled as `""` (both are falsy in the Python truthiness tests the code
performs on it). -/

/-- What resolving and dispatching one requested tool call does: either
`execute_with_result` returns a `ToolResult` (status success or error — a
tool's own failure is caught inside `execute_with_result`, lines 54–61 of
`src/tools/base.py`, and reported as an error result), or an exception escapes
resolution/dispatch itself (e.g. `ToolRegistry.get_tool` raising for an
unknown name, or malformed arguments failing to bind). -/
inductive DispatchOutcome where
  | result (ok : Bool) (text : String)
  | raised (msg : String)
  deriving Repr, DecidableEq

/-- `true` exactly when dispatch returned a `ToolResult` rather than raising. -/
def DispatchOutcome.isResult : DispatchOutcome → Bool
  | .result _ _ => true
  | .raised _ => false

/-- One tool call requested by the backend: its name, the optional
`arguments["message"]` field (used by the synthetic finish tool), and how its
dispatch behaves. -/
structure TCall where
  name : String
  argMessage : Option String
  outcome : DispatchOutcome
  deriving Repr, DecidableEq

/-- One reasoning-backend reply: either the `chat_completion` call raises, or
it returns reasoning text plus a (possibly empty) list of tool calls. -/
inductive LLMStep where
  | raise (msg : String)
  | resp (content : String) (tool_calls : List TCall)
  deriving Repr, DecidableEq

/-- The dictionary `execute_task` returns.  `finished_early` is `false` when
the Python dict omits the key; `result`/`error` are `none` when omitted. -/
structure TaskResult where
  success : Bool
  result : Option String
  error : Option String
  thoughts : List String
  actions : List String
  observations : List String
  iterations : Nat
  finished_early : Bool
  deriving Repr, DecidableEq

/-- The ASCII apostrophe, used in observation strings. -/
def sq : String := (Char.ofNat 39).toString

/-- The observation string formatted for a tool result (lines 238–241):
success embeds the serialized output, failure embeds the error text. -/
def toolObservation (name : String) (ok : Bool) (text : String) : String :=
  if ok then "Tool " ++ sq ++ name ++ sq ++ " succeeded: " ++ text
  else "Tool " ++ sq ++ name ++ sq ++ " failed: " ++ text

/-- The result text of the finish shortcut (lines 208–212):
`arguments.get("message", thought)` then `final_message or thought or
"Task completed"`. -/
def finishResultMsg (c : TCall) (content : String) : String :=
  let fm := c.argMessage.getD content
  if fm ≠ "" then fm else if content ≠ "" then content else "Task completed"

/-- Outcome of the inner loop over one reply's tool calls: either an early
return of `execute_task` (`done`), or control flows on to the next outer
iteration with the updated trace (`next`). -/
inductive CallsOutcome where
  | done (r : TaskResult)
  | next (th ac ob : List String)
  deriving Repr, DecidableEq

/-- The inner `for tool_call_data in response["tool_calls"]` loop (lines
188–254): a requested finish call terminates at once with success and the
supplied summary; any other call is recorded in `actions` and dispatched — a
returned tool result (success or error) becomes one observation string and
processing continues, while an escaping exception aborts the task with
`success = False` and the partial trace; when the calls are exhausted the
outer loop proceeds to the next iteration. -/
def processCalls (iter : Nat) (content : String) :
    List String → List String → List String → List TCall → CallsOutcome
  | th, ac, ob, [] => .next th ac ob
  | th, ac, ob, c :: rest =>
      if c.name = "finish" then
        .done
          { success := true
            result := some (finishResultMsg c content)
            error := none, thoughts := th, actions := ac ++ ["finish"]
            observations := ob, iterations := iter + 1, finished_early := true }
      else
        match c.outcome with
        | .raised msg =>
            .done
              { success := false, result := none, error := some msg
                thoughts := th, actions := ac ++ [c.name], observations := ob
                iterations := iter + 1, finished_early := false }
        | .result ok text =>
            processCalls iter content th (ac ++ [c.name])
              (ob ++ [toolObservation c.name ok text]) rest

/-- The `for iteration in range(self.max_iterations)` loop of `execute_task`
(lines 130–290), with `fuel` the remaining iterations and `iter` the current
index: check the early-finish flag; call the backend (a raised exception is
caught by the iteration's `except` and aborts with `success = False`); append
the nonempty reasoning text to `thoughts`; with no tool calls return the
reasoning text as the successful result; otherwise process the requested
calls and, unless they returned early, continue with the next iteration.
Exhausted fuel is the loop ending: a successful sentinel
"Max iterations reached" result. -/
def reactIter (steps : Nat → LLMStep) (maxIter : Nat) :
    Nat → Nat → Bool → List String → List String → List String → TaskResult
  | 0, _, _, th, ac, ob =>
      { success := true, result := some "Max iterations reached", error := none
        thoughts := th, actions := ac, observations := ob
        iterations := maxIter, finished_early := false }
  | fuel + 1, iter, finished, th, ac, ob =>
      if finished then
        { success := true
          result := some (th.getLastD "Task completed via finish()")
          error := none, thoughts := th, actions := ac, observations := ob
          iterations := iter, finished_early := true }
      else
        match steps iter with
        | .raise msg =>
            { success := false, result := none, error := some msg
              thoughts := th, actions := ac, observations := ob
              iterations := iter + 1, finished_early := false }
        | .resp content calls =>
            let th' := if content = "" then th else th ++ [content]
            if calls.isEmpty then
              { success := true, result := some content, error := none
                thoughts := th', actions := ac, observations := ob
                iterations := iter + 1, finished_early := false }
            else
              match processCalls iter content th' ac ob calls with
              | .done r => r
              | .next th2 ac2 ob2 =>
                  reactIter steps maxIter fuel (iter + 1) false th2 ac2 ob2

/-- `BaseAgent.execute_task`: line 87 resets `self._task_finished` to `False`
before the loop, discarding whatever value (`initialFinished`) previous
activity on the agent instance left in the flag. -/
def executeTask (maxIter : Nat) (initialFinished : Bool)
    (steps : Nat → LLMStep) : TaskResult :=
  reactIter steps maxIter maxIter 0 false [] [] []

/-- A backend that, in its first reply, requests a tool whose resolution
raises, followed by the finish tool. -/
def badThenFinishSteps : Nat → LLMStep := fun _ =>
  .resp "working"
    [{ name := "web_search", argMessage := none
       outcome := .raised "Tool not found" },
     { name := "finish", argMessage := some "done"
       outcome := .result true "" }]

/-- A backend whose first reply requests one tool that reports a failure, and
whose second reply has no tool calls. -/
def failThenOkSteps : Nat → LLMStep := fun i =>
  if i = 0 then
    .resp "trying"
      [{ name := "file_saver", argMessage := none
         outcome := .result false "disk full" }]
  else .resp "done" []

/-- C5 counterexample: the backend requests the finish tool at iteration 0,
but a tool call listed before it in the same reply raises during dispatch, so
`execute_task` returns `success = false` with no `finished_early` key — the
finish request does not yield a successful early finish. -/
theorem taskFinishRefuted :
    (executeTask 10 false badThenFinishSteps).success = false ∧
    (executeTask 10 false badThenFinishSteps).finished_early = false ∧
    badThenFinishSteps 0 = .resp "working"
      [{ name := "web_search", argMessage := none
         outcome := .raised "Tool not found" },
       { name := "finish", argMessage := some "done"
         outcome := .result true "" }] :=
  ⟨rfl, rfl, rfl⟩

/-- Processing a call list whose clean prefix is followed by a finish call
returns early with the finish result. -/
theorem processCalls_finish (iter : Nat) (content : String) (fc : TCall)
    (rest : List TCall) (hfc : fc.name = "finish") :
    ∀ (pre : List TCall),
      (∀ c ∈ pre, c.name ≠ "finish" ∧ c.outcome.isResult = true) →
      ∀ (th ac ob : List String), ∃ ac' ob',
        processCalls iter content th ac ob (pre ++ fc :: rest)
          = .done { success := true
                    result := some (finishResultMsg fc content)
                    error := none, thoughts := th, actions := ac'
                    observations := ob', iterations := iter + 1
                    finished_early := true } := by
  intro pre
  induction pre with
  | nil =>
      intro _ th ac ob
      exact ⟨ac ++ ["finish"], ob, by simp [processCalls, hfc]⟩
  | cons c pre ih =>
      intro hpre th ac ob
      obtain ⟨hname, hres⟩ := hpre c (List.mem_cons_self c pre)
      cases hout : c.outcome with
      | raised m => rw [hout] at hres; simp [DispatchOutcome.isResult] at hres
      | result ok text =>
          have hred :
              processCalls iter content th ac ob ((c :: pre) ++ fc :: rest)
                = processCalls iter content th (ac ++ [c.name])
                    (ob ++ [toolObservation c.name ok text]) (pre ++ fc :: rest) := by
            simp [processCalls, hname, hout]
          rw [hred]
          exact ih (fun d hd => hpre d (List.mem_cons_of_mem c hd)) th _ _

/-- C5 (amended): whenever the reasoning backend requests the finish tool in
an iteration and every tool call listed before it in that reply dispatches
without an escaping exception, the executor terminates during that same
iteration with `success = true`, `finished_early = true` and the supplied
summary as the result, regardless of how many thoughts or actions preceded. -/
theorem taskFinishImmediate :
    ∀ (steps : Nat → LLMStep) (maxIter fuel iter : Nat) (content : String)
      (th ac ob : List String) (pre : List TCall) (fc : TCall)
      (rest : List TCall),
      steps iter = .resp content (pre ++ fc :: rest) →
      fc.name = "finish" →
      (∀ c ∈ pre, c.name ≠ "finish" ∧ c.outcome.isResult = true) →
      ∃ ac' ob',
        reactIter steps maxIter (fuel + 1) iter false th ac ob
          = { success := true
              result := some (finishResultMsg fc content)
              error := none
              thoughts := if content = "" then th else th ++ [content]
              actions := ac', observations := ob'
              iterations := iter + 1, finished_early := true } := by
  intro steps maxIter fuel iter content th ac ob pre fc rest hstep hfc hpre
  obtain ⟨ac', ob', hp⟩ :=
    processCalls_finish iter content fc rest hfc pre hpre
      (if content = "" then th else th ++ [content]) ac ob
  refine ⟨ac', ob', ?_⟩
  have hne : (pre ++ fc :: rest).isEmpty = false := by cases pre <;> rfl
  rw [reactIter, hstep]
  simp only [Bool.false_eq_true, if_false, hne, hp]

/-- Witness for `taskFinishImmediate` at a concrete reply. -/
theorem taskFinishImmediateWitness :
    ∃ ac' ob',
      reactIter
        (fun _ => .resp "thinking"
          ([{ name := "file_saver", argMessage := none
              outcome := .result false "disk full" }] ++
            ({ name := "finish", argMessage := some "all saved"
               outcome := .result true "" } : TCall) :: []))
        5 5 0 false [] [] []
        = { success := true
            result := some (finishResultMsg
              { name := "finish", argMessage := some "all saved"
                outcome := .result true "" } "thinking")
            error := none
            thoughts := if "thinking" = "" then ([] : List String)
              else [] ++ ["thinking"]
            actions := ac', observations := ob'
            iterations := 0 + 1, finished_early := true } :=
  taskFinishImmediate
    (fun _ => .resp "thinking"
      ([{ name := "file_saver", argMessage := none
          outcome := .result false "disk full" }] ++
        ({ name := "finish", argMessage := some "all saved"
           outcome := .result true "" } : TCall) :: []))
    5 4 0 "thinking" [] [] []
    [{ name := "file_saver", argMessage := none
       outcome := .result false "disk full" }]
    { name := "finish", argMessage := some "all saved"
      outcome := .result true "" } [] rfl rfl (by decide)

/-- C7: a failure reported by a tool's own execution becomes one observation
string appended to the trace and processing continues (first conjunct), with
success still reachable afterwards (third conjunct, a complete run); only an
exception escaping tool resolution/dispatch aborts the task at once with
`success = false` while preserving the partial thoughts/actions/observations
trace (second conjunct). -/
theorem toolErrorHandling :
    (∀ (iter : Nat) (content : String) (th ac ob : List String) (n : String)
       (m : Option String) (e : String) (rest : List TCall),
       n ≠ "finish" →
       processCalls iter content th ac ob
           ({ name := n, argMessage := m, outcome := .result false e } :: rest)
         = processCalls iter content th (ac ++ [n])
             (ob ++ [toolObservation n false e]) rest)
    ∧ (∀ (iter : Nat) (content : String) (th ac ob : List String) (n : String)
         (m : Option String) (msg : String) (rest : List TCall),
         n ≠ "finish" →
         processCalls iter content th ac ob
             ({ name := n, argMessage := m, outcome := .raised msg } :: rest)
           = .done { success := false, result := none, error := some msg
                     thoughts := th, actions := ac ++ [n], observations := ob
                     iterations := iter + 1, finished_early := false })
    ∧ ((executeTask 10 false failThenOkSteps).success = true ∧
        (executeTask 10 false failThenOkSteps).observations
          = [toolObservation "file_saver" false "disk full"]) := by
  refine ⟨?_, ?_, rfl, rfl⟩
  · intro iter content th ac ob n m e rest hn
    simp [processCalls, hn]
  · intro iter content th ac ob n m msg rest hn
    simp [processCalls, hn]

/-- Witness for `toolErrorHandling` at a concrete call list. -/
theorem toolErrorHandlingWitness :
    processCalls 0 "c" [] [] []
        [{ name := "web_search", argMessage := none
           outcome := .result false "rate limited" }]
      = processCalls 0 "c" [] ["web_search"]
          [toolObservation "web_search" false "rate limited"] [] :=
  toolErrorHandling.1 0 "c" [] [] []
    "web_search" none "rate limited" [] (by decide)

/-- C10: `execute_task` resets the early-finish flag at the start of every
call, so its outcome is that of a run started with the flag clear, whatever
flag value an earlier task left (first conjunct); had the loop instead started
with the flag still set, it would return `finished_early = true` with
`iterations = 0` without consulting the reasoning backend at all (second
conjunct: the result is the same for every backend). -/
theorem finishFlagReset :
    ∀ (maxIter : Nat) (b : Bool) (steps : Nat → LLMStep),
      executeTask maxIter b steps = executeTask maxIter false steps
      ∧ (0 < maxIter →
          (reactIter steps maxIter maxIter 0 true [] [] []).finished_early = true
          ∧ (reactIter steps maxIter maxIter 0 true [] [] []).iterations = 0
          ∧ ∀ steps2 : Nat → LLMStep,
              reactIter steps maxIter maxIter 0 true [] [] []
                = reactIter steps2 maxIter maxIter 0 true [] [] []) := by
  intro maxIter b steps
  refine ⟨rfl, fun hpos => ?_⟩
  obtain ⟨n, rfl⟩ : ∃ n, maxIter = n + 1 :=
    ⟨maxIter - 1, (Nat.succ_pred_eq_of_pos hpos).symm⟩
  exact ⟨rfl, rfl, fun steps2 => rfl⟩

/-- Witness for `finishFlagReset` at a concrete backend. -/
theorem finishFlagResetWitness :
    (reactIter badThenFinishSteps 3 3 0 true [] [] []).finished_early = true :=
  ((finishFlagReset 3 true badThenFinishSteps).2 (by decide)).1

/-! ## Orchestrator decision parsing (`src/agents/orchestrator.py`)

`OrchestratorAgent._parse_decision_response` (lines 118–160) scans a free-text
reply line by line with three anchored, case-insensitive regexes:
  * `[-*\s]*NEXT[_\s-]*AGENT\s*[:=]\s*(.+)`
  * `[-*\s]*PLAN[_\s-]*STEP\s*[:=]\s*(.+)`
  * `[-*\s]*TASK\s*[:=]\s*(.*)`
plus `[-*\s]*(NEXT[_\s-]*AGENT|PLAN[_\s-]*STEP)\b` as a task-block boundary.
Each character class is followed by a literal outside the class, so the
regexes are implemented as greedy class-drops plus case-insensitive literal
matches; the matchers run on `strip()`ed lines, on which this is equivalent
to the backtracking semantics.  Unicode-only edges of Python `splitlines`
(\x1c–\x1e, \x85, U+2028/9 separators) and underscore digit grouping in
`int()` are outside the embedding. -/

/-- Regex `\w` (ASCII). -/
def isWordChar (c : Char) : Bool := c.isAlphanum || c = '_'

/-- The class `[-*\s]` prefixing each selector regex. -/
def leadClass (c : Char) : Bool := c = '-' || c = '*' || pyIsSpace c

/-- The class `[_\s-]` between the two words of a selector. -/
def midClass (c : Char) : Bool := c = '_' || c = '-' || pyIsSpace c

/-- The class `[:=]` separating a selector from its value. -/
def colonEq (c : Char) : Bool := c = ':' || c = '='

/-- Case-insensitive anchored literal match, returning the rest on success. -/
def matchLitCI : List Char → List Char → Option (List Char)
  | [], rest => some rest
  | _ :: _, [] => none
  | l :: ls, r :: rs => if r.toLower = l.toLower then matchLitCI ls rs else none

/-- Python `str.lower()` (ASCII). -/
def pyLower (s : String) : String := ⟨s.data.map Char.toLower⟩

/-- Python `str.upper()` (ASCII). -/
def pyUpper (s : String) : String := ⟨s.data.map Char.toUpper⟩

/-- Match `[-*\s]*FIRST[_\s-]*SECOND\s*[:=]\s*(.+)` against one stripped
line, returning the captured group (which, on a stripped line, is nonempty
exactly when the regex matches). -/
def matchTwoWordTag (first second : List Char) (line : List Char) :
    Option String :=
  match matchLitCI first (line.dropWhile leadClass) with
  | none => none
  | some s =>
      match matchLitCI second (s.dropWhile midClass) with
      | none => none
      | some s =>
          match s.dropWhile pyIsSpace with
          | [] => none
          | c :: s =>
              if colonEq c then
                match s.dropWhile pyIsSpace with
                | [] => none
                | rest => some ⟨rest⟩
              else none

/-- Match `[-*\s]*TASK\s*[:=]\s*(.*)` against one stripped line, returning
the (possibly empty) captured group. -/
def matchTaskTag (line : List Char) : Option String :=
  match matchLitCI "TASK".data (line.dropWhile leadClass) with
  | none => none
  | some s =>
      match s.dropWhile pyIsSpace with
      | [] => none
      | c :: s => if colonEq c then some ⟨s.dropWhile pyIsSpace⟩ else none

/-- Match the task-block boundary `[-*\s]*(NEXT[_\s-]*AGENT|PLAN[_\s-]*STEP)\b`. -/
def isBoundaryLine (line : List Char) : Bool :=
  let s := line.dropWhile leadClass
  let tryTag (first second : List Char) : Bool :=
    match matchLitCI first s with
    | none => false
    | some s1 =>
        match matchLitCI second (s1.dropWhile midClass) with
        | none => false
        | some s2 =>
            match s2 with
            | [] => true
            | c :: _ => !(isWordChar c)
  tryTag "NEXT".data "AGENT".data || tryTag "PLAN".data "STEP".data

/-- Digit-string value for Python `int()` (no sign): all characters must be
digits and at least one must be present. -/
def digitsVal (ds : List Char) : Option Nat :=
  if ds.isEmpty || !(ds.all (·.isDigit)) then none
  else some (ds.foldl (fun n c => n * 10 + (c.toNat - 48)) 0)

/-- Python `int(value)` on an already-stripped string: optional sign followed
by digits, else a `ValueError` (modelled as `none`). -/
def pyInt (s : String) : Option Int :=
  match s.data with
  | [] => none
  | c :: cs =>
      if c = '-' then (digitsVal cs).map (fun n => -(n : Int))
      else if c = '+' then (digitsVal cs).map (fun n => (n : Int))
      else (digitsVal (c :: cs)).map (fun n => (n : Int))

/-- The Python value held by `plan_step` after parsing: `None`, an `int`, or
a non-numeric non-NONE string kept verbatim. -/
inductive StepField where
  | absent
  | num (n : Int)
  | text (s : String)
  deriving Repr, DecidableEq

/-- The dictionary `_parse_decision_response` returns. -/
structure ParsedDecision where
  next_agent : Option String
  plan_step : StepField
  task : Option String
  deriving Repr, DecidableEq

/-- Python `str.splitlines()` restricted to `\n`, `\r\n` and `\r`
terminators: a trailing terminator does not produce a final empty piece and
the empty string yields no lines. -/
def pySplitlinesAux : List Char → List Char → List String
  | [], acc => [⟨acc.reverse⟩]
  | '\r' :: '\n' :: rest, acc =>
      String.mk acc.reverse ::
        (if rest.isEmpty then [] else pySplitlinesAux rest [])
  | '\n' :: rest, acc =>
      String.mk acc.reverse ::
        (if rest.isEmpty then [] else pySplitlinesAux rest [])
  | '\r' :: rest, acc =>
      String.mk acc.reverse ::
        (if rest.isEmpty then [] else pySplitlinesAux rest [])
  | c :: rest, acc => pySplitlinesAux rest (c :: acc)

/-- Python `str.splitlines()` (see `pySplitlinesAux`). -/
def pySplitlines (s : String) : List String :=
  if s = "" then [] else pySplitlinesAux s.data []

/-- The line scan of `_parse_decision_response` (lines 123–154), carrying the
mutable locals `next_agent`, `plan_step`, `task_lines`, `collecting_task`. -/
def parseDecisionLines :
    List String → Option String → StepField → List String → Bool →
    ParsedDecision
  | [], na, ps, taskLines, _ =>
      { next_agent := na
        plan_step := ps
        task :=
          if taskLines.isEmpty then none
          else some (pyStrip (String.intercalate "\n"
            (taskLines.filter (· ≠ "")))) }
  | raw :: more, na, ps, taskLines, collecting =>
      let line := pyStrip raw
      if line = "" then parseDecisionLines more na ps taskLines collecting
      else
        match matchTwoWordTag "NEXT".data "AGENT".data line.data with
        | some v => parseDecisionLines more (some (pyStrip v)) ps taskLines false
        | none =>
        match matchTwoWordTag "PLAN".data "STEP".data line.data with
        | some v =>
            let value := pyStrip v
            let ps' :=
              if pyUpper value = "NONE" then StepField.absent
              else
                match pyInt value with
                | some n => StepField.num n
                | none => StepField.text value
            parseDecisionLines more na ps' taskLines false
        | none =>
        match matchTaskTag line.data with
        | some frag =>
            let ff := pyStrip frag
            parseDecisionLines more na ps (if ff = "" then [] else [ff]) true
        | none =>
            if collecting then
              if isBoundaryLine line.data then
                parseDecisionLines more na ps taskLines false
              else parseDecisionLines more na ps (taskLines ++ [line]) collecting
            else parseDecisionLines more na ps taskLines collecting

/-- `OrchestratorAgent._parse_decision_response` (lines 118–160). -/
def parseDecisionResponse (response : String) : ParsedDecision :=
  parseDecisionLines (pySplitlines response) none .absent [] false

/-- Python truthiness of an optional string (`None` and `""` are falsy). -/
def pyTruthy : Option String → Bool
  | none => false
  | some s => s ≠ ""

/-- The acceptance test of `decide_next_step` (line 105):
`next_agent and (next_agent.lower() in {"planner", "finish"} or
task_description)`. -/
def decisionValid (p : ParsedDecision) : Bool :=
  match p.next_agent with
  | none => false
  | some na =>
      na ≠ "" &&
        (pyLower na = "planner" || pyLower na = "finish" || pyTruthy p.task)

/-- The dictionary `decide_next_step` returns on success. -/
structure Decision where
  next_agent : String
  task : Option String
  plan_step : StepField
  reasoning : String
  deriving Repr, DecidableEq

/-- The `while attempts < 3` retry loop of `decide_next_step` (lines 92–116):
each attempt re-prompts (with a format correction after the first) and
accepts the reply iff `decisionValid`; exhausting the budget raises
`ValueError`.  `responses` is the backend's reply for each attempt index. -/
def decideLoop (responses : Nat → String) : Nat → Nat → Except String Decision
  | _, 0 =>
      .error "Orchestrator failed to provide a valid NEXT_AGENT after 3 attempts."
  | attempts, fuel + 1 =>
      let response := responses attempts
      let parsed := parseDecisionResponse response
      if decisionValid parsed then
        .ok { next_agent := parsed.next_agent.getD ""
              task := parsed.task
              plan_step := parsed.plan_step
              reasoning := response }
      else decideLoop responses (attempts + 1) fuel

/-- `OrchestratorAgent.decide_next_step` (lines 50–116), with context
formatting elided: only the retry/validation structure over the backend's
successive replies. -/
def decideNextStep (responses : Nat → String) : Except String Decision :=
  decideLoop responses 0 3

/-- C4 counterexample: a reply selecting the non-terminal agent `planner`
with no task text at all is accepted as valid on the first attempt — not
treated as invalid — because the acceptance test whitelists `planner`
alongside `finish`. -/
theorem plannerEmptyTaskAccepted :
    decideNextStep (fun _ => "NEXT_AGENT: planner")
      = .ok { next_agent := "planner", task := none
              plan_step := .absent, reasoning := "NEXT_AGENT: planner" } := by
  decide

/-- C4 (amended): a reply whose selector is neither `planner` nor `finish`
and which supplies no task text is invalid; three invalid replies in a row
exhaust the retry budget and raise the fatal validation error (first and
third conjuncts — the third is exactly scenario C with selector `executor`);
`finish` with an empty task is accepted as valid (fourth conjunct), and so is
`planner` with an empty task. -/
theorem decisionTaskValidation :
    (∀ (responses : Nat → String),
       (∀ i, i < 3 → decisionValid (parseDecisionResponse (responses i)) = false) →
       decideNextStep responses
         = .error "Orchestrator failed to provide a valid NEXT_AGENT after 3 attempts.")
    ∧ (∀ (p : ParsedDecision) (na : String), p.next_agent = some na →
         pyLower na ≠ "planner" → pyLower na ≠ "finish" →
         pyTruthy p.task = false → decisionValid p = false)
    ∧ decideNextStep (fun _ => "NEXT_AGENT: executor\nPLAN_STEP: NONE\nTASK:")
        = .error "Orchestrator failed to provide a valid NEXT_AGENT after 3 attempts."
    ∧ (∃ d : Decision,
        decideNextStep (fun _ => "NEXT_AGENT: finish\nPLAN_STEP: NONE\nTASK:")
          = .ok d
        ∧ d.next_agent = "finish" ∧ d.task = none) := by
  refine ⟨?_, ?_, by decide,
    ⟨{ next_agent := "finish", task := none, plan_step := .absent
       reasoning := "NEXT_AGENT: finish\nPLAN_STEP: NONE\nTASK:" },
      by decide, rfl, rfl⟩⟩
  · intro responses h
    have h0 := h 0 (by omega)
    have h1 := h 1 (by omega)
    have h2 := h 2 (by omega)
    simp [decideNextStep, decideLoop, h0, h1, h2]
  · intro p na hna h1 h2 h3
    simp [decisionValid, hna, h1, h2, h3]

/-- Witness for `decisionTaskValidation` on concrete invalid replies. -/
theorem decisionTaskValidationWitness :
    decideNextStep (fun _ => "no structured reply here")
      = .error "Orchestrator failed to provide a valid NEXT_AGENT after 3 attempts." := by
  exact decisionTaskValidation.1 (fun _ => "no structured reply here")
    (by
      intro i hi
      show decisionValid (parseDecisionResponse "no structured reply here") = false
      decide)

/-- C9: the decision parser is a pure function of the response text — equal
inputs yield equal `(agent, step, task)` triples on every repeated call — and
on a well-formed three-field decision response it yields exactly the declared
selector, step number and task text. -/
theorem parseDecisionDeterministic :
    (∀ r : String, parseDecisionResponse r = parseDecisionResponse r)
    ∧ parseDecisionResponse
        "NEXT_AGENT: executor\nPLAN_STEP: 2\nTASK: inspect the dataset"
        = { next_agent := some "executor", plan_step := .num 2
            task := some "inspect the dataset" } :=
  ⟨fun _ => rfl, by decide⟩

/-! ## Controller plan/status state (`src/workflow_engine.py`, `src/agents/planner.py`)

`execute_workflow` (lines 204–515) owns the current plan, the mutable
`plan_step_status` dictionary keyed by step number, a fallback journal step
counter, and the `final_report_created` flag.  We embed the state updates each
dispatch branch performs.  `PlannerAgent.create_plan` (lines 146–180) builds
the plan steps either verbatim from the JSON array found in the backend's
response — with no validation of step numbers — or from a built-in default
plan whose steps are numbered consecutively from 1. -/

/-- One plan step (fields beyond the number and objective elided). -/
structure PlanStep where
  step_number : Int
  objective : String
  deriving Repr, DecidableEq

/-- One value of the `plan_step_status` dictionary. -/
structure StepStatusEntry where
  status : String
  summary : String
  deriving Repr, DecidableEq

/-- The controller-owned mutable state relevant to plan/step bookkeeping. -/
structure CtrlState where
  planSteps : Option (List PlanStep)
  planStepStatus : Int → Option StepStatusEntry
  journalStepCounter : Nat
  finalReportCreated : Bool

/-- `PlannerAgent.create_plan` (lines 149–171): when the response contains a
JSON array it becomes the plan's steps verbatim; otherwise (and on any parse
exception) `_create_default_plan` supplies the steps. -/
def createPlanSteps (llmSteps : Option (List PlanStep))
    (defaultSteps : List PlanStep) : List PlanStep :=
  match llmSteps with
  | some steps => steps
  | none => defaultSteps

/-- The `step_number` fields of `_build_strategy_plan` (lines 222–292). -/
def defaultStrategyPlanNumbers : List Int := [1, 2, 3, 4, 5, 6]

/-- The `step_number` fields of `_build_eda_plan` (lines 294–353). -/
def defaultEdaPlanNumbers : List Int := [1, 2, 3, 4, 5]

/-- The `step_number` fields of `_build_hypothesis_plan` (lines 355–413). -/
def defaultHypothesisPlanNumbers : List Int := [1, 2, 3, 4, 5]

/-- The planner dispatch branch (lines 338–359): the plan is replaced
wholesale and `plan_step_status` is reset to the empty dictionary. -/
def plannerDispatch (newSteps : List PlanStep) (st : CtrlState) : CtrlState :=
  { st with planSteps := some newSteps, planStepStatus := fun _ => none }

/-- The executor dispatch branch (lines 361–379): bump the journal counter
and, exactly when the declared plan step is an `int`, record
success/failure of the delegated task under that key — whether or not the
key occurs in the current plan. -/
def executorDispatch (planStep : Option Int) (success : Bool)
    (summary : String) (st : CtrlState) : CtrlState :=
  let st' := { st with journalStepCounter := st.journalStepCounter + 1 }
  match planStep with
  | some n =>
      let e : StepStatusEntry :=
        { status := (if success then "success" else "failed"), summary := summary }
      { st' with planStepStatus := fun k =>
          if k = n then some e else st.planStepStatus k }
  | none => st'

/-- The summary line the writer branch records (lines 466–469). -/
def writerSummary (reportExists : Bool) : String :=
  if reportExists then "Final report created at final_report.md."
  else "Writer completed task but final_report.md not found."

/-- The journal entry `writer_result` built at lines 438–444: its `success`
field is the deliverable-file existence check, and `result` is whatever the
writer returned. -/
structure WriterJournalEntry where
  success : Bool
  result : String
  deriving Repr, DecidableEq

/-- The writer dispatch branch (lines 420–477): after the writer agent
returns `writerOutput`, success is judged solely by whether
`final_report.md` exists in the workspace (`reportExists`): the journalled
result's `success`, the recorded step status, and the
`final_report_created` flag (set only when the file exists, otherwise left
unchanged) all derive from the existence check alone. -/
def writerDispatch (planStep : Option Int) (reportExists : Bool)
    (writerOutput : String) (st : CtrlState) :
    CtrlState × WriterJournalEntry :=
  let entry : WriterJournalEntry :=
    { success := reportExists, result := writerOutput }
  let st' := { st with
    journalStepCounter := st.journalStepCounter + 1
    finalReportCreated := st.finalReportCreated || reportExists }
  match planStep with
  | some n =>
      let e : StepStatusEntry :=
        { status := (if reportExists then "success" else "failed")
          summary := writerSummary reportExists }
      ({ st' with planStepStatus := fun k =>
          if k = n then some e else st.planStepStatus k }, entry)
  | none => (st', entry)

/-- The controller state at the start of a run (lines 274–281). -/
def ctrlInit : CtrlState :=
  { planSteps := none, planStepStatus := fun _ => none
    journalStepCounter := 0, finalReportCreated := false }

/-- A two-step plan as the orchestrator might hold it. -/
def twoStepPlan : List PlanStep :=
  [{ step_number := 1, objective := "research" },
   { step_number := 2, objective := "report" }]

/-- C3 counterexample: after installing a two-step plan, an executor dispatch
declaring step 99 makes the controller record a status entry under key 99,
which is absent from the current plan — refuting "the status map never
contains an entry for a step number absent from the current plan"; moreover
`create_plan` accepts a backend JSON plan whose step numbers are out of order
verbatim, with no validation. -/
theorem planInvariantRefuted :
    ((executorDispatch (some 99) true "done"
        (plannerDispatch twoStepPlan ctrlInit)).planStepStatus 99).isSome = true
    ∧ (99 : Int) ∉ twoStepPlan.map (fun s => s.step_number)
    ∧ (executorDispatch (some 99) true "done"
        (plannerDispatch twoStepPlan ctrlInit)).planSteps = some twoStepPlan
    ∧ createPlanSteps
        (some [{ step_number := 2, objective := "b" },
               { step_number := 1, objective := "a" }]) []
        = [{ step_number := 2, objective := "b" },
           { step_number := 1, objective := "a" }] :=
  ⟨rfl, by decide, rfl, rfl⟩

/-- C3 (amended): the planner's built-in default plans have unique, strictly
increasing step numbers; replacing the plan resets the status map to empty;
and a dispatch writes status only under its declared integer step key — and
under no key at all when no integer step was declared — but neither
backend-produced plans nor declared step keys are validated against the
current plan. -/
theorem planStatusDiscipline :
    (List.Pairwise (· < ·) defaultStrategyPlanNumbers
      ∧ List.Pairwise (· < ·) defaultEdaPlanNumbers
      ∧ List.Pairwise (· < ·) defaultHypothesisPlanNumbers)
    ∧ (∀ (newSteps : List PlanStep) (st : CtrlState) (k : Int),
        (plannerDispatch newSteps st).planStepStatus k = none)
    ∧ (∀ (st : CtrlState) (n : Int) (success : Bool) (summary : String)
         (k : Int), k ≠ n →
        (executorDispatch (some n) success summary st).planStepStatus k
          = st.planStepStatus k)
    ∧ (∀ (st : CtrlState) (success : Bool) (summary : String) (k : Int),
        (executorDispatch none success summary st).planStepStatus k
          = st.planStepStatus k) := by
  refine ⟨by decide, fun _ _ _ => rfl, ?_, fun _ _ _ _ => rfl⟩
  intro st n success summary k hk
  simp [executorDispatch, hk]

/-- Witness for `planStatusDiscipline`: a dispatch declaring step 3 leaves
the status of key 7 untouched. -/
theorem planStatusDisciplineWitness :
    (executorDispatch (some 3) true "s" ctrlInit).planStepStatus 7
      = ctrlInit.planStepStatus 7 :=
  planStatusDiscipline.2.2.1 ctrlInit 3 true "s" 7 (by decide)

/-- C6: the step outcome the controller records for a writer dispatch is
success exactly when `final_report.md` exists after the writer returns: the
journalled entry's `success` equals the existence check (first conjunct), the
resulting controller state is identical for any two writer outputs (second
conjunct), a declared integer step is recorded as success/failed purely by
existence (third conjunct), and the final-report flag becomes set only on
existence (fourth conjunct). -/
theorem writerSuccessByFileExistence :
    ∀ (planStep : Option Int) (reportExists : Bool) (out1 out2 : String)
      (st : CtrlState),
      ((writerDispatch planStep reportExists out1 st).2.success = reportExists)
      ∧ ((writerDispatch planStep reportExists out1 st).1
          = (writerDispatch planStep reportExists out2 st).1)
      ∧ (∀ n : Int, planStep = some n →
          (writerDispatch planStep reportExists out1 st).1.planStepStatus n
            = some { status := if reportExists then "success" else "failed"
                     summary := writerSummary reportExists })
      ∧ ((writerDispatch planStep reportExists out1 st).1.finalReportCreated
          = (st.finalReportCreated || reportExists)) := by
  intro planStep reportExists out1 out2 st
  cases planStep with
  | none =>
      refine ⟨rfl, rfl, ?_, rfl⟩
      intro n h
      simp at h
  | some m =>
      refine ⟨rfl, rfl, ?_, rfl⟩
      intro n h
      obtain rfl : m = n := by injection h
      simp [writerDispatch]

/-- Witness for `writerSuccessByFileExistence` at a concrete dispatch. -/
theorem writerSuccessByFileExistenceWitness :
    (writerDispatch (some 6) false "I wrote a great report" ctrlInit).1.planStepStatus 6
      = some { status := "failed", summary := writerSummary false } :=
  (writerSuccessByFileExistence (some 6) false "I wrote a great report" "" ctrlInit).2.2.1
    6 rfl

end AgenticQuant
